import Mathlib

/-!
Shallow embedding of `src/fastmcp_slack.py` (slack_mcp repository).

The session store `SESSION_TOKENS : dict[str, str]` is modelled as a map
`String → Option String`; the process environment as `String → Option String`;
the Slack Web API (`WebClient`) as an oracle structure `Gateway` whose methods
take the resolved bot token and either return a structured response or fail
with a gateway error-code string (modelling `SlackApiError`).  Every tool
operation returns, besides its structured result, the list of gateway calls it
performed (the trace, with the token each call carried) and the session store
after the call.
-/

namespace SlackMcp

/-- The process-wide `SESSION_TOKENS` dict, as a map from session id to the
raw bot-token string. -/
def Store : Type := String → Option String

/-- The process environment (`os.getenv`): unset variables map to `none`. -/
def Env : Type := String → Option String

/-- Python truthiness of an optional string argument (`if bot_token:` is
false for `None` and for the empty string). -/
def pyTruthy (o : Option String) : Bool := !(o.getD "" == "")

/-- Python `str.startswith`, embedded on the character lists of the two
strings (Lean's own `String.startsWith` is irreducible here). -/
def strStartsWith (s p : String) : Bool := p.data.isPrefixOf s.data

/-- Python `or`-style coalescing: keep the value only when it is truthy
(present and non-empty). -/
def truthyStr : Option String → Option String
  | some s => if s = "" then none else some s
  | none => none

/-- Structured error outcomes of the tool operations.  `missingSessionId` /
`invalidSessionId` are the two `ValueError`s of `_resolve_session_token`;
`envVarMissing` / `invalidCredentialShape` those of `_client`;
`sessionRequired` is the guard string `error: session_required`;
`gatewayError` carries `e.response["error"]` from a `SlackApiError` on a
primary call; `notFound` carries `no_im_channels` or `no_recent_dm_found`. -/
inductive ToolError where
  | sessionRequired
  | missingSessionId
  | invalidSessionId
  | envVarMissing (name : String)
  | invalidCredentialShape
  | gatewayError (code : String)
  | notFound (which : String)
deriving DecidableEq, Repr

/-- Successful `users.info` response: the `real_name` field of the user
object and the `email` field of its profile, each possibly absent. -/
structure UserInfo where
  real_name : Option String
  email : Option String
deriving DecidableEq, Repr

/-- Successful `bots.info` response: the bot `name` field, possibly absent. -/
structure BotInfo where
  name : Option String
deriving DecidableEq, Repr

/-- A conversation object returned by `conversations.list`. -/
structure Channel where
  id : String
  name : Option String
  is_im : Bool
  user : Option String
deriving DecidableEq, Repr

/-- A message object returned by `conversations.history`.  Timestamps are
modelled as rationals (the code parses the `ts` string with `float`). -/
structure Message where
  text : Option String
  user : Option String
  bot_id : Option String
  ts : Option ℚ
deriving DecidableEq, Repr

/-- Successful `chat.postMessage` response (the fields the code reads). -/
structure PostResponse where
  ok : Option Bool
  ts : Option ℚ
  message_user : Option String
  message_bot_id : Option String
deriving DecidableEq, Repr

/-- One observable call to the Slack API, with the bot token it carried. -/
inductive GatewayCall where
  | conversationsList (token : String) (types : String) (limit : Option Nat)
  | conversationsHistory (token : String) (channel : String) (limit : Nat)
  | usersInfo (token : String) (user : String)
  | botsInfo (token : String) (bot : String)
  | chatPostMessage (token : String) (channel : String) (text : String)
      (thread_ts : Option String)
deriving DecidableEq, Repr

/-- The external messaging gateway as a deterministic oracle: each method
takes the bot token and the request arguments and either succeeds with a
structured response or fails with an error-code string. -/
structure Gateway where
  conversations_list : String → String → Option Nat → Except String (List Channel)
  conversations_history : String → String → Nat → Except String (List Message)
  users_info : String → String → Except String UserInfo
  bots_info : String → String → Except String BotInfo
  chat_postMessage : String → String → String → Option String →
      Except String PostResponse

/-- `_client`, step 1: resolve the `env:` indirection.  `os.getenv` returning
`None` or the empty string triggers `env_var_missing:<name>`. -/
def resolveIndirection (env : Env) (token : String) : Except ToolError String :=
  if strStartsWith token "env:" then
    let env_name := token.drop 4
    match env env_name with
    | none => .error (.envVarMissing env_name)
    | some v => if v = "" then .error (.envVarMissing env_name) else .ok v
  else .ok token

/-- `_client`: resolve indirection, then require the `xoxb-` bot-token
prefix. -/
def resolveCredential (env : Env) (token : String) : Except ToolError String :=
  match resolveIndirection env token with
  | .error e => .error e
  | .ok t => if strStartsWith t "xoxb-" then .ok t else .error .invalidCredentialShape

/-- `_resolve_session_token`: a falsy session id is `missing_session_id`;
an id absent from `SESSION_TOKENS` (or mapped to a falsy token) is
`invalid_session_id`. -/
def resolveSessionToken (store : Store) (session_id : Option String) :
    Except ToolError String :=
  match session_id with
  | none => .error .missingSessionId
  | some sid =>
    if sid = "" then .error .missingSessionId
    else
      match store sid with
      | none => .error .invalidSessionId
      | some t => if t = "" then .error .invalidSessionId else .ok t

/-- `create_session`: validate the raw token via `_client` (discarding the
client), then store the raw token under a fresh handle (`uuid4().hex`,
supplied here as the parameter `fresh`). -/
def create_session (env : Env) (store : Store) (bot_token : String)
    (fresh : String) : Except ToolError String × Store :=
  match resolveCredential env bot_token with
  | .error e => (.error e, store)
  | .ok _ => (.ok fresh, fun k => if k = fresh then some bot_token else store k)

/-- `destroy_session`: delete the entry if present and report whether a
deletion happened. -/
def destroy_session (store : Store) (session_id : String) : Bool × Store :=
  if (store session_id).isSome then
    (true, fun k => if k = session_id then none else store k)
  else (false, store)

/-- `msg.get("user") or msg.get("bot_id") or "Unknown"`. -/
def senderIdOf (user bot_id : Option String) : String :=
  ((truthyStr user).orElse (fun _ => truthyStr bot_id)).getD "Unknown"

/-- The sender-enrichment block shared by `list_recent_messages`,
`send_reply` and `auto_reply_latest`: an id starting with `U` triggers a
`users.info` lookup, one starting with `B` a `bots.info` lookup; a
`SlackApiError` from the lookup is swallowed (`pass`), leaving the defaults
`(sender_id, "")`.  Returns `((sender_name, profile), calls made)`. -/
def resolveSender (gw : Gateway) (tok : String) (sender_id : String) :
    (String × String) × List GatewayCall :=
  if strStartsWith sender_id "U" then
    match gw.users_info tok sender_id with
    | .ok ui =>
        ((ui.real_name.getD sender_id, ui.email.getD ""),
          [.usersInfo tok sender_id])
    | .error _ => ((sender_id, ""), [.usersInfo tok sender_id])
  else if strStartsWith sender_id "B" then
    match gw.bots_info tok sender_id with
    | .ok bi => ((bi.name.getD sender_id, ""), [.botsInfo tok sender_id])
    | .error _ => ((sender_id, ""), [.botsInfo tok sender_id])
  else ((sender_id, ""), [])

/-- One entry of the `list_recent_messages` result array. -/
structure MsgEntry where
  text : String
  sender_name : String
  profile : String
  ts : Option ℚ
deriving DecidableEq, Repr

/-- Build the output entry for one message of the fetched history. -/
def enrichMessage (gw : Gateway) (tok : String) (msg : Message) :
    MsgEntry × List GatewayCall :=
  let sender_id := senderIdOf msg.user msg.bot_id
  (⟨msg.text.getD "", (resolveSender gw tok sender_id).1.1,
      (resolveSender gw tok sender_id).1.2, msg.ts⟩,
    (resolveSender gw tok sender_id).2)

/-- One entry of the `list_dms` result array. -/
structure DmEntry where
  channel_id : String
  channel_name : String
  profile : String
deriving DecidableEq, Repr

/-- Build the output entry for one channel of `conversations.list`: the name
defaults to the id; for an IM with a peer user a `users.info` call decorates
the name as `Direct Message with <real name>` (degrading to the raw user id
and empty profile when the lookup fails). -/
def dmEntry (gw : Gateway) (tok : String) (ch : Channel) :
    DmEntry × List GatewayCall :=
  if ch.is_im then
    match truthyStr ch.user with
    | some uid =>
      match gw.users_info tok uid with
      | .ok ui =>
          (⟨ch.id, "Direct Message with " ++ ui.real_name.getD uid,
              ui.email.getD ""⟩, [.usersInfo tok uid])
      | .error _ =>
          (⟨ch.id, "Direct Message with " ++ uid, ""⟩, [.usersInfo tok uid])
    | none => (⟨ch.id, (truthyStr ch.name).getD ch.id, ""⟩, [])
  else (⟨ch.id, (truthyStr ch.name).getD ch.id, ""⟩, [])

/-- Outcome of a tool operation: the structured result, the gateway trace,
and the session store after the call. -/
structure OpOut (α : Type) where
  result : Except ToolError α
  calls : List GatewayCall
  store : Store

/-- `list_dms`: guard, session resolution, credential resolution, one
`conversations.list` call with types `im,mpim,private_channel`, then one
best-effort enrichment per channel. -/
def list_dms (gw : Gateway) (env : Env) (store : Store)
    (bot_token session_id : Option String) (limit : Nat) :
    OpOut (List DmEntry) :=
  if pyTruthy bot_token && !(pyTruthy session_id) then
    ⟨.error .sessionRequired, [], store⟩
  else
    match resolveSessionToken store session_id with
    | .error e => ⟨.error e, [], store⟩
    | .ok token =>
      match resolveCredential env token with
      | .error e => ⟨.error e, [], store⟩
      | .ok tok =>
        match gw.conversations_list tok "im,mpim,private_channel" (some limit) with
        | .error e =>
            ⟨.error (.gatewayError e),
              [.conversationsList tok "im,mpim,private_channel" (some limit)],
              store⟩
        | .ok channels =>
          let folded := channels.foldl
            (fun (acc : List DmEntry × List GatewayCall) ch =>
              (acc.1 ++ [(dmEntry gw tok ch).1], acc.2 ++ (dmEntry gw tok ch).2))
            ([], [])
          ⟨.ok folded.1,
            .conversationsList tok "im,mpim,private_channel" (some limit)
              :: folded.2,
            store⟩

/-- `list_recent_messages`: guard, session resolution, credential
resolution, one `conversations.history` call, then one best-effort
sender enrichment per message. -/
def list_recent_messages (gw : Gateway) (env : Env) (store : Store)
    (channel : String) (bot_token session_id : Option String) (limit : Nat) :
    OpOut (List MsgEntry) :=
  if pyTruthy bot_token && !(pyTruthy session_id) then
    ⟨.error .sessionRequired, [], store⟩
  else
    match resolveSessionToken store session_id with
    | .error e => ⟨.error e, [], store⟩
    | .ok token =>
      match resolveCredential env token with
      | .error e => ⟨.error e, [], store⟩
      | .ok tok =>
        match gw.conversations_history tok channel limit with
        | .error e =>
            ⟨.error (.gatewayError e),
              [.conversationsHistory tok channel limit], store⟩
        | .ok messages =>
          let folded := messages.foldl
            (fun (acc : List MsgEntry × List GatewayCall) msg =>
              (acc.1 ++ [(enrichMessage gw tok msg).1],
                acc.2 ++ (enrichMessage gw tok msg).2))
            ([], [])
          ⟨.ok folded.1,
            .conversationsHistory tok channel limit :: folded.2, store⟩

/-- The `send_reply` success payload. -/
structure SendResult where
  ok : Bool
  channel : String
  ts : Option ℚ
  sender_name : String
  profile : String
deriving DecidableEq, Repr

/-- `send_reply`: guard, session resolution, credential resolution, one
`chat.postMessage` call, then one best-effort enrichment of the posted
message's sender. -/
def send_reply (gw : Gateway) (env : Env) (store : Store)
    (channel text : String) (thread_ts : Option String)
    (bot_token session_id : Option String) : OpOut SendResult :=
  if pyTruthy bot_token && !(pyTruthy session_id) then
    ⟨.error .sessionRequired, [], store⟩
  else
    match resolveSessionToken store session_id with
    | .error e => ⟨.error e, [], store⟩
    | .ok token =>
      match resolveCredential env token with
      | .error e => ⟨.error e, [], store⟩
      | .ok tok =>
        match gw.chat_postMessage tok channel text thread_ts with
        | .error e =>
            ⟨.error (.gatewayError e),
              [.chatPostMessage tok channel text thread_ts], store⟩
        | .ok resp =>
          let sender_id := senderIdOf resp.message_user resp.message_bot_id
          ⟨.ok ⟨resp.ok.getD false, channel, resp.ts,
              (resolveSender gw tok sender_id).1.1,
              (resolveSender gw tok sender_id).1.2⟩,
            .chatPostMessage tok channel text thread_ts
              :: (resolveSender gw tok sender_id).2,
            store⟩

/-- One step of the latest-DM probe loop of `auto_reply_latest`: once a
`SlackApiError` has aborted the loop no further history call is made;
otherwise probe the candidate's newest message and keep it when its
timestamp strictly exceeds the running maximum (initialised to 0). -/
def probeStep (gw : Gateway) (tok : String)
    (acc : Except String (Option Channel × ℚ) × List GatewayCall)
    (dm : Channel) : Except String (Option Channel × ℚ) × List GatewayCall :=
  match acc.1 with
  | .error _ => acc
  | .ok st =>
    match gw.conversations_history tok dm.id 1 with
    | .error e => (.error e, acc.2 ++ [.conversationsHistory tok dm.id 1])
    | .ok [] => (.ok st, acc.2 ++ [.conversationsHistory tok dm.id 1])
    | .ok (m :: _) =>
      if m.ts.getD 0 > st.2 then
        (.ok (some dm, m.ts.getD 0),
          acc.2 ++ [.conversationsHistory tok dm.id 1])
      else (.ok st, acc.2 ++ [.conversationsHistory tok dm.id 1])

/-- The probe loop of `auto_reply_latest` over all IM candidates, starting
from `latest_dm = None`, `latest_ts = 0`. -/
def probeLatest (gw : Gateway) (tok : String) (ims : List Channel) :
    Except String (Option Channel × ℚ) × List GatewayCall :=
  ims.foldl (probeStep gw tok) (.ok (none, 0), [])

/-- The conversation-selection portion of `auto_reply_latest`: the empty
check (`no_im_channels`), the probe loop, and the no-candidate check
(`no_recent_dm_found`). -/
def selectLatest (gw : Gateway) (tok : String) (ims : List Channel) :
    Except ToolError Channel × List GatewayCall :=
  if ims.isEmpty then (.error (.notFound "no_im_channels"), [])
  else
    match probeLatest gw tok ims with
    | (.error e, calls) => (.error (.gatewayError e), calls)
    | (.ok (none, _), calls) => (.error (.notFound "no_recent_dm_found"), calls)
    | (.ok (some dm, _), calls) => (.ok dm, calls)

/-- The `auto_reply_latest` success payload. -/
structure AutoResult where
  channel : String
  ts : Option ℚ
  sender_name : String
  profile : String
deriving DecidableEq, Repr

/-- The default reply text of `auto_reply_latest`. -/
def defaultAutoText : String :=
  "Thanks! I" ++ String.singleton (Char.ofNat 39) ++ "ll get back to you soon."

/-- `auto_reply_latest`: default the text, guard, session resolution,
credential resolution, one `conversations.list` for IMs, the latest-DM
selection, one `chat.postMessage` to the winner, then one best-effort
enrichment of the posted message's sender. -/
def auto_reply_latest (gw : Gateway) (env : Env) (store : Store)
    (text bot_token session_id : Option String) : OpOut AutoResult :=
  let text' := (truthyStr text).getD defaultAutoText
  if pyTruthy bot_token && !(pyTruthy session_id) then
    ⟨.error .sessionRequired, [], store⟩
  else
    match resolveSessionToken store session_id with
    | .error e => ⟨.error e, [], store⟩
    | .ok token =>
      match resolveCredential env token with
      | .error e => ⟨.error e, [], store⟩
      | .ok tok =>
        match gw.conversations_list tok "im" none with
        | .error e =>
            ⟨.error (.gatewayError e), [.conversationsList tok "im" none],
              store⟩
        | .ok ims =>
          match selectLatest gw tok ims with
          | (.error e, calls) =>
              ⟨.error e, .conversationsList tok "im" none :: calls, store⟩
          | (.ok dm, calls) =>
            match gw.chat_postMessage tok dm.id text' none with
            | .error e =>
                ⟨.error (.gatewayError e),
                  .conversationsList tok "im" none :: calls
                    ++ [.chatPostMessage tok dm.id text' none],
                  store⟩
            | .ok resp =>
              let sender_id := senderIdOf resp.message_user resp.message_bot_id
              ⟨.ok ⟨dm.id, resp.ts, (resolveSender gw tok sender_id).1.1,
                  (resolveSender gw tok sender_id).1.2⟩,
                .conversationsList tok "im" none :: calls
                  ++ [.chatPostMessage tok dm.id text' none]
                  ++ (resolveSender gw tok sender_id).2,
                store⟩

/-! ### Helper lemmas and concrete test fixtures -/

/-- A successful session resolution implies the session id was truthy, so
the `session_required` guard cannot fire. -/
lemma resolveSessionToken_ok_truthy {store : Store} {session_id : Option String}
    {t : String} (h : resolveSessionToken store session_id = .ok t) :
    pyTruthy session_id = true := by
  match session_id with
  | none => simp [resolveSessionToken] at h
  | some sid =>
    by_cases hsid : sid = ""
    · simp [resolveSessionToken, hsid] at h
    · simp [pyTruthy, hsid]

/-- A string with the `xoxb-` prefix is non-empty. -/
lemma xoxb_ne_empty {v : String} (h : strStartsWith v "xoxb-" = true) : v ≠ "" := by
  intro hv
  subst hv
  exact absurd h (by decide)

/-- Characterisation of the entry/trace-accumulating folds used by
`list_dms` and `list_recent_messages`. -/
lemma foldl_entries_calls {α β γ : Type} (f : α → β) (g : α → List γ) :
    ∀ (l : List α) (acc : List β × List γ),
      l.foldl (fun acc x => (acc.1 ++ [f x], acc.2 ++ g x)) acc
        = (acc.1 ++ l.map f, acc.2 ++ l.flatMap g) := by
  intro l
  induction l with
  | nil => intro acc; simp
  | cons x xs ih =>
    intro acc
    simp only [List.foldl_cons, ih, List.map_cons, List.flatMap_cons]
    simp [List.append_assoc]

/-- An always-empty environment. -/
def envEmpty : Env := fun _ => none

/-- An empty session store. -/
def storeEmpty : Store := fun _ => none

/-- A store with one session `"s1"` holding a direct bot token. -/
def storeOne : Store := fun k => if k = "s1" then some "xoxb-secret" else none

/-- A gateway on which every call fails. -/
def gwFail : Gateway :=
  ⟨fun _ _ _ => .error "gw", fun _ _ _ => .error "gw", fun _ _ => .error "gw",
    fun _ _ => .error "gw", fun _ _ _ _ => .error "gw"⟩

/-! ### C3 -/

/-- C3: every session-requiring operation called with a truthy raw
credential and a falsy session handle fails with `SessionRequired` and
performs zero gateway calls. -/
theorem c3_session_required_guard (gw : Gateway) (env : Env) (store : Store)
    (bot_token session_id atext : Option String) (channel text : String)
    (thread_ts : Option String) (limit : Nat)
    (hb : pyTruthy bot_token = true) (hs : pyTruthy session_id = false) :
    list_dms gw env store bot_token session_id limit
        = ⟨.error .sessionRequired, [], store⟩
      ∧ list_recent_messages gw env store channel bot_token session_id limit
        = ⟨.error .sessionRequired, [], store⟩
      ∧ send_reply gw env store channel text thread_ts bot_token session_id
        = ⟨.error .sessionRequired, [], store⟩
      ∧ auto_reply_latest gw env store atext bot_token session_id
        = ⟨.error .sessionRequired, [], store⟩ := by
  refine ⟨?_, ?_, ?_, ?_⟩ <;>
    simp [list_dms, list_recent_messages, send_reply, auto_reply_latest, hb, hs]

/-- Witness for C3 at concrete inputs. -/
theorem c3_witness :
    pyTruthy (some "xoxb-secret") = true ∧ pyTruthy none = false ∧
      list_dms gwFail envEmpty storeEmpty (some "xoxb-secret") none 20
        = ⟨.error .sessionRequired, [], storeEmpty⟩ :=
  ⟨by decide, by decide,
    (c3_session_required_guard gwFail envEmpty storeEmpty (some "xoxb-secret")
      none none "C1" "hi" none 20 (by decide) (by decide)).1⟩

/-! ### C4 -/

/-- C4: a raw credential with the `env:` prefix resolves through the
environment and fails with `EnvVarMissing(name)` when the variable is unset
or empty; and any credential whose resolved value lacks the `xoxb-` prefix
fails with `InvalidCredentialShape`, with or without indirection. -/
theorem c4_credential_resolution (env : Env) (raw : String) :
    (strStartsWith raw "env:" = true →
        (env (raw.drop 4) = none ∨ env (raw.drop 4) = some "") →
        resolveCredential env raw = .error (.envVarMissing (raw.drop 4)))
      ∧ (∀ v, strStartsWith raw "env:" = true → env (raw.drop 4) = some v →
          v ≠ "" → strStartsWith v "xoxb-" = false →
          resolveCredential env raw = .error .invalidCredentialShape)
      ∧ (strStartsWith raw "env:" = false → strStartsWith raw "xoxb-" = false →
          resolveCredential env raw = .error .invalidCredentialShape) := by
  refine ⟨?_, ?_, ?_⟩
  · intro hp hv
    rcases hv with h | h <;>
      simp [resolveCredential, resolveIndirection, hp, h]
  · intro v hp hv hne hx
    simp [resolveCredential, resolveIndirection, hp, hv, hne, hx]
  · intro hp hx
    simp [resolveCredential, resolveIndirection, hp, hx]

/-- An environment holding one non-bot-shaped secret under `TOK`. -/
def envBad : Env := fun n => if n = "TOK" then some "not-a-bot-token" else none

/-- Witness for C4 at concrete inputs: unset variable, badly shaped
indirect secret, badly shaped direct secret. -/
theorem c4_witness :
    resolveCredential envEmpty "env:TOK" = .error (.envVarMissing "TOK")
      ∧ resolveCredential envBad "env:TOK" = .error .invalidCredentialShape
      ∧ resolveCredential envEmpty "plain" = .error .invalidCredentialShape :=
  ⟨(c4_credential_resolution envEmpty "env:TOK").1 (by decide) (Or.inl rfl),
    (c4_credential_resolution envBad "env:TOK").2.1 "not-a-bot-token"
      (by decide) (by decide) (by decide) (by decide),
    (c4_credential_resolution envEmpty "plain").2.2 (by decide) (by decide)⟩

/-- A string with the `env:` prefix is non-empty. -/
lemma envpre_ne_empty {v : String} (h : strStartsWith v "env:" = true) :
    v ≠ "" := by
  intro hv
  subst hv
  exact absurd h (by decide)

/-- A string starting with `xoxb-` does not start with `env:`. -/
lemma xoxb_not_env {v : String} (h : strStartsWith v "xoxb-" = true) :
    strStartsWith v "env:" = false := by
  unfold strStartsWith at h ⊢
  have hx : "xoxb-".data = ['x', 'o', 'x', 'b', '-'] := rfl
  have he : "env:".data = ['e', 'n', 'v', ':'] := rfl
  rw [hx] at h
  rw [he]
  revert h
  cases v.data with
  | nil =>
    intro h
    exact absurd h (by decide)
  | cons c cs =>
    intro h
    simp only [List.isPrefixOf, Bool.and_eq_true, beq_iff_eq] at h
    obtain ⟨hc, -⟩ := h
    rw [← hc]
    simp [List.isPrefixOf]

/-! ### C8 -/

/-- C8: destroying an existing handle removes it and reports `true`;
destroying it again (or destroying an absent handle) is an error-free
no-op reporting `false`. -/
theorem c8_destroy_idempotent (store : Store) (h : String) :
    ((store h).isSome = true →
        destroy_session store h
            = (true, fun k => if k = h then none else store k)
          ∧ destroy_session (destroy_session store h).2 h
            = (false, (destroy_session store h).2))
      ∧ ((store h).isSome = false → destroy_session store h = (false, store)) := by
  constructor
  · intro hp
    constructor
    · simp [destroy_session, hp]
    · simp [destroy_session, hp]
  · intro hp
    simp [destroy_session, hp]

/-- Witness for C8: double destruction of the concrete handle `s1`. -/
theorem c8_witness :
    (storeOne "s1").isSome = true
      ∧ destroy_session storeOne "s1"
          = (true, fun k => if k = "s1" then none else storeOne k)
      ∧ destroy_session (destroy_session storeOne "s1").2 "s1"
          = (false, (destroy_session storeOne "s1").2) :=
  ⟨by decide, ((c8_destroy_idempotent storeOne "s1").1 (by decide)).1,
    ((c8_destroy_idempotent storeOne "s1").1 (by decide)).2⟩

/-! ### C9 -/

/-- C9: creating a session with a valid direct (`xoxb-`-shaped) credential
stores exactly that credential under the fresh handle, and resolving the
handle afterwards yields exactly the supplied credential string. -/
theorem c9_create_resolve_roundtrip (env : Env) (store : Store)
    (bot_token fresh : String)
    (hshape : strStartsWith bot_token "xoxb-" = true) (hfresh : fresh ≠ "") :
    create_session env store bot_token fresh
        = (.ok fresh, fun k => if k = fresh then some bot_token else store k)
      ∧ (fun k => if k = fresh then some bot_token else store k) fresh
          = some bot_token
      ∧ resolveSessionToken
            (fun k => if k = fresh then some bot_token else store k)
            (some fresh)
          = .ok bot_token := by
  have hdirect : strStartsWith bot_token "env:" = false := xoxb_not_env hshape
  have hcred : resolveCredential env bot_token = .ok bot_token := by
    simp [resolveCredential, resolveIndirection, hdirect, hshape]
  refine ⟨by simp [create_session, hcred], by simp, ?_⟩
  have hne := xoxb_ne_empty hshape
  simp [resolveSessionToken, hfresh, hne]

/-- Witness for C9 at a concrete credential and handle. -/
theorem c9_witness :
    strStartsWith "xoxb-secret" "xoxb-" = true ∧ ("h1" : String) ≠ ""
      ∧ resolveSessionToken
            (fun k => if k = "h1" then some "xoxb-secret" else storeEmpty k)
            (some "h1")
          = .ok "xoxb-secret" :=
  ⟨by decide, by decide,
    (c9_create_resolve_roundtrip envEmpty storeEmpty "xoxb-secret" "h1"
      (by decide) (by decide)).2.2⟩

/-! ### C10 -/

/-- C10: the four session-requiring operations never change the session
store (whatever their outcome); `create_session` adds exactly the one fresh
entry and leaves every other key unchanged; `destroy_session` removes at
most the named entry (that key maps to nothing afterwards, every other key
is untouched). -/
theorem c10_store_frame (gw : Gateway) (env : Env) (store : Store)
    (bot_token session_id atext : Option String) (channel text : String)
    (thread_ts : Option String) (limit : Nat) (raw_tok fresh sid : String) :
    (list_dms gw env store bot_token session_id limit).store = store
      ∧ (list_recent_messages gw env store channel bot_token session_id
          limit).store = store
      ∧ (send_reply gw env store channel text thread_ts bot_token
          session_id).store = store
      ∧ (auto_reply_latest gw env store atext bot_token session_id).store
          = store
      ∧ ((create_session env store raw_tok fresh).1.isOk = true →
          (create_session env store raw_tok fresh).2 fresh = some raw_tok)
      ∧ (∀ k, k ≠ fresh →
          (create_session env store raw_tok fresh).2 k = store k)
      ∧ (destroy_session store sid).2 sid = none
      ∧ (∀ k, k ≠ sid → (destroy_session store sid).2 k = store k) := by
  refine ⟨?_, ?_, ?_, ?_, ?_, ?_, ?_, ?_⟩
  · simp only [list_dms]
    repeat' split
    all_goals rfl
  · simp only [list_recent_messages]
    repeat' split
    all_goals rfl
  · simp only [send_reply]
    repeat' split
    all_goals rfl
  · simp only [auto_reply_latest]
    repeat' split
    all_goals rfl
  · intro hok
    unfold create_session at hok ⊢
    cases hcred : resolveCredential env raw_tok with
    | error e =>
        rw [hcred] at hok
        simp [Except.isOk, Except.toBool] at hok
    | ok t => simp [hcred]
  · intro k hk
    unfold create_session
    cases hcred : resolveCredential env raw_tok with
    | error e => rfl
    | ok t => simp [hk]
  · unfold destroy_session
    split
    · simp
    · rename_i hns
      rw [Option.not_isSome_iff_eq_none] at hns
      exact hns
  · intro k hk
    unfold destroy_session
    split
    · simp [hk]
    · rfl

/-- Witness for C10 at concrete inputs. -/
theorem c10_witness :
    (list_dms gwFail envEmpty storeOne (some "xoxb-x") none 7).store = storeOne
      ∧ (destroy_session storeOne "s1").2 "s1" = none
      ∧ (destroy_session storeOne "s1").2 "other" = storeOne "other" :=
  ⟨(c10_store_frame gwFail envEmpty storeOne (some "xoxb-x") none none "C1"
      "hi" none 7 "xoxb-x" "h1" "s1").1,
    (c10_store_frame gwFail envEmpty storeOne (some "xoxb-x") none none "C1"
      "hi" none 7 "xoxb-x" "h1" "s1").2.2.2.2.2.2.1,
    (c10_store_frame gwFail envEmpty storeOne (some "xoxb-x") none none "C1"
      "hi" none 7 "xoxb-x" "h1" "s1").2.2.2.2.2.2.2 "other" (by decide)⟩

/-! ### C5 -/

/-- C5: a session whose stored credential is an `env:NAME` reference
re-reads `NAME` at each use: under two different environments the same
handle resolves to the same raw string, but the credential resolution — and
hence the token carried by the first gateway call of an operation — follows
the current environment value, while the store is left unchanged. -/
theorem c5_env_reread_per_call (gw : Gateway) (store : Store) (env1 env2 : Env)
    (handle raw name v1 v2 : String) (limit : Nat)
    (hstore : store handle = some raw) (hhandle : handle ≠ "")
    (hpre : strStartsWith raw "env:" = true) (hname : raw.drop 4 = name)
    (h1 : env1 name = some v1) (hv1 : strStartsWith v1 "xoxb-" = true)
    (h2 : env2 name = some v2) (hv2 : strStartsWith v2 "xoxb-" = true) :
    resolveSessionToken store (some handle) = .ok raw
      ∧ resolveCredential env1 raw = .ok v1
      ∧ resolveCredential env2 raw = .ok v2
      ∧ (list_dms gw env1 store none (some handle) limit).calls.head?
          = some (.conversationsList v1 "im,mpim,private_channel" (some limit))
      ∧ (list_dms gw env2 store none (some handle) limit).calls.head?
          = some (.conversationsList v2 "im,mpim,private_channel" (some limit))
      ∧ (list_dms gw env1 store none (some handle) limit).store = store := by
  have hraw_ne : raw ≠ "" := envpre_ne_empty hpre
  have hsess : resolveSessionToken store (some handle) = .ok raw := by
    simp [resolveSessionToken, hhandle, hstore, hraw_ne]
  have hc1 : resolveCredential env1 raw = .ok v1 := by
    simp [resolveCredential, resolveIndirection, hpre, hname, h1,
      xoxb_ne_empty hv1, hv1]
  have hc2 : resolveCredential env2 raw = .ok v2 := by
    simp [resolveCredential, resolveIndirection, hpre, hname, h2,
      xoxb_ne_empty hv2, hv2]
  refine ⟨hsess, hc1, hc2, ?_, ?_, ?_⟩
  · simp only [list_dms, hsess, hc1, pyTruthy]
    cases gw.conversations_list v1 "im,mpim,private_channel" (some limit) <;>
      simp
  · simp only [list_dms, hsess, hc2, pyTruthy]
    cases gw.conversations_list v2 "im,mpim,private_channel" (some limit) <;>
      simp
  · simp only [list_dms, hsess, hc1, pyTruthy]
    cases gw.conversations_list v1 "im,mpim,private_channel" (some limit) <;>
      simp

/-- A store holding one session `h1` with an `env:SLACK` indirection. -/
def storeEnvRef : Store := fun k => if k = "h1" then some "env:SLACK" else none

/-- A first environment value for `SLACK`. -/
def envA : Env := fun n => if n = "SLACK" then some "xoxb-a" else none

/-- A second, different environment value for `SLACK`. -/
def envB : Env := fun n => if n = "SLACK" then some "xoxb-b" else none

/-- Witness for C5: flipping `SLACK` between two calls flips the secret the
gateway sees, with the same stored raw credential. -/
theorem c5_witness :
    storeEnvRef "h1" = some "env:SLACK"
      ∧ resolveCredential envA "env:SLACK" = .ok "xoxb-a"
      ∧ resolveCredential envB "env:SLACK" = .ok "xoxb-b"
      ∧ (list_dms gwFail envA storeEnvRef none (some "h1") 20).calls.head?
          = some (.conversationsList "xoxb-a" "im,mpim,private_channel"
              (some 20))
      ∧ (list_dms gwFail envB storeEnvRef none (some "h1") 20).calls.head?
          = some (.conversationsList "xoxb-b" "im,mpim,private_channel"
              (some 20)) := by
  have h := c5_env_reread_per_call gwFail storeEnvRef envA envB "h1"
    "env:SLACK" "SLACK" "xoxb-a" "xoxb-b" 20 (by decide) (by decide)
    (by decide) (by decide) (by decide) (by decide) (by decide) (by decide)
  have h' := c5_env_reread_per_call gwFail storeEnvRef envB envA "h1"
    "env:SLACK" "SLACK" "xoxb-b" "xoxb-a" 20 (by decide) (by decide)
    (by decide) (by decide) (by decide) (by decide) (by decide) (by decide)
  exact ⟨by decide, h.2.1, h'.2.1, h.2.2.2.1, h'.2.2.2.1⟩

/-! ### C1 -/

/-- Spec-side expected `list_dms` entry when every identity lookup fails:
the display name degrades to the raw peer user id and the profile to the
empty string. -/
def degradedDm (ch : Channel) : DmEntry :=
  if ch.is_im then
    match truthyStr ch.user with
    | some uid => ⟨ch.id, "Direct Message with " ++ uid, ""⟩
    | none => ⟨ch.id, (truthyStr ch.name).getD ch.id, ""⟩
  else ⟨ch.id, (truthyStr ch.name).getD ch.id, ""⟩

/-- Spec-side expected message entry when every identity lookup fails: the
sender name degrades to the raw sender id and the profile to the empty
string. -/
def degradedMsg (m : Message) : MsgEntry :=
  ⟨m.text.getD "", senderIdOf m.user m.bot_id, "", m.ts⟩

/-- When both lookups fail on a gateway, sender enrichment degrades to the
raw id and an empty profile. -/
lemma resolveSender_fail {gw : Gateway} {tok : String} (sid : String)
    (hu : ∀ u, ∃ e, gw.users_info tok u = .error e)
    (hb : ∀ b, ∃ e, gw.bots_info tok b = .error e) :
    (resolveSender gw tok sid).1 = (sid, "") := by
  unfold resolveSender
  obtain ⟨eu, heu⟩ := hu sid
  obtain ⟨eb, heb⟩ := hb sid
  by_cases h1 : strStartsWith sid "U" = true
  · simp [h1, heu]
  · by_cases h2 : strStartsWith sid "B" = true
    · simp [h1, h2, heb]
    · simp [h1, h2]

/-- When both lookups fail, `dmEntry` produces the degraded entry. -/
lemma dmEntry_fail {gw : Gateway} {tok : String} (ch : Channel)
    (hu : ∀ u, ∃ e, gw.users_info tok u = .error e) :
    (dmEntry gw tok ch).1 = degradedDm ch := by
  unfold dmEntry degradedDm
  by_cases him : ch.is_im = true
  · cases hcase : truthyStr ch.user with
    | none => simp [him, hcase]
    | some uid =>
      obtain ⟨eu, heu⟩ := hu uid
      simp [him, hcase, heu]
  · simp [him]

/-- When both lookups fail, `enrichMessage` produces the degraded entry. -/
lemma enrichMessage_fail {gw : Gateway} {tok : String} (m : Message)
    (hu : ∀ u, ∃ e, gw.users_info tok u = .error e)
    (hb : ∀ b, ∃ e, gw.bots_info tok b = .error e) :
    (enrichMessage gw tok m).1 = degradedMsg m := by
  have h := resolveSender_fail (senderIdOf m.user m.bot_id) hu hb
  simp [enrichMessage, degradedMsg, h]

/-- On a successful primary `conversations.list`, `list_dms` succeeds and
returns one (best-effort enriched) entry per channel. -/
lemma list_dms_ok_result {gw : Gateway} {env : Env} {store : Store}
    {bot_token session_id : Option String} {limit : Nat}
    {token tok : String} {chans : List Channel}
    (hsess : resolveSessionToken store session_id = .ok token)
    (hcred : resolveCredential env token = .ok tok)
    (hlist : gw.conversations_list tok "im,mpim,private_channel" (some limit)
      = .ok chans) :
    (list_dms gw env store bot_token session_id limit).result
      = .ok (chans.map (fun ch => (dmEntry gw tok ch).1)) := by
  have hguard := resolveSessionToken_ok_truthy hsess
  simp [list_dms, hguard, hsess, hcred, hlist,
    foldl_entries_calls (fun ch => (dmEntry gw tok ch).1)
      (fun ch => (dmEntry gw tok ch).2) chans ([], [])]

/-- On a successful primary `conversations.history`,
`list_recent_messages` succeeds and returns one (best-effort enriched)
entry per message. -/
lemma list_recent_messages_ok_result {gw : Gateway} {env : Env}
    {store : Store} {channel : String} {bot_token session_id : Option String}
    {limit : Nat} {token tok : String} {msgs : List Message}
    (hsess : resolveSessionToken store session_id = .ok token)
    (hcred : resolveCredential env token = .ok tok)
    (hhist : gw.conversations_history tok channel limit = .ok msgs) :
    (list_recent_messages gw env store channel bot_token session_id
        limit).result
      = .ok (msgs.map (fun m => (enrichMessage gw tok m).1)) := by
  have hguard := resolveSessionToken_ok_truthy hsess
  simp [list_recent_messages, hguard, hsess, hcred, hhist,
    foldl_entries_calls (fun m => (enrichMessage gw tok m).1)
      (fun m => (enrichMessage gw tok m).2) msgs ([], [])]

/-- On a successful primary `chat.postMessage`, `send_reply` succeeds with
the (best-effort enriched) posted-message sender. -/
lemma send_reply_ok_result {gw : Gateway} {env : Env} {store : Store}
    {channel text : String} {thread_ts : Option String}
    {bot_token session_id : Option String} {token tok : String}
    {resp : PostResponse}
    (hsess : resolveSessionToken store session_id = .ok token)
    (hcred : resolveCredential env token = .ok tok)
    (hpost : gw.chat_postMessage tok channel text thread_ts = .ok resp) :
    (send_reply gw env store channel text thread_ts bot_token
        session_id).result
      = .ok ⟨resp.ok.getD false, channel, resp.ts,
          (resolveSender gw tok
            (senderIdOf resp.message_user resp.message_bot_id)).1.1,
          (resolveSender gw tok
            (senderIdOf resp.message_user resp.message_bot_id)).1.2⟩ := by
  have hguard := resolveSessionToken_ok_truthy hsess
  simp [send_reply, hguard, hsess, hcred, hpost]

/-- C1: when the primary gateway call of `list_dms`,
`list_recent_messages` or `send_reply` succeeds, the operation succeeds no
matter what the enrichment lookups do; and when every identity lookup
fails, the success payload carries the raw sender id as display name and an
empty profile contact. -/
theorem c1_enrichment_degrades_not_fails (gw : Gateway) (env : Env)
    (store : Store) (bot_token session_id : Option String)
    (channel text : String) (thread_ts : Option String) (limit : Nat)
    (token tok : String) (chans : List Channel) (msgs : List Message)
    (resp : PostResponse)
    (hsess : resolveSessionToken store session_id = .ok token)
    (hcred : resolveCredential env token = .ok tok)
    (hlist : gw.conversations_list tok "im,mpim,private_channel" (some limit)
      = .ok chans)
    (hhist : gw.conversations_history tok channel limit = .ok msgs)
    (hpost : gw.chat_postMessage tok channel text thread_ts = .ok resp) :
    ((list_dms gw env store bot_token session_id limit).result.isOk = true
      ∧ (list_recent_messages gw env store channel bot_token session_id
          limit).result.isOk = true
      ∧ (send_reply gw env store channel text thread_ts bot_token
          session_id).result.isOk = true)
    ∧ ((∀ u, ∃ e, gw.users_info tok u = .error e) →
        (∀ b, ∃ e, gw.bots_info tok b = .error e) →
        (list_dms gw env store bot_token session_id limit).result
            = .ok (chans.map degradedDm)
          ∧ (list_recent_messages gw env store channel bot_token session_id
              limit).result = .ok (msgs.map degradedMsg)
          ∧ (send_reply gw env store channel text thread_ts bot_token
              session_id).result
            = .ok ⟨resp.ok.getD false, channel, resp.ts,
                senderIdOf resp.message_user resp.message_bot_id, ""⟩) := by
  constructor
  · refine ⟨?_, ?_, ?_⟩
    · rw [list_dms_ok_result hsess hcred hlist]; rfl
    · rw [list_recent_messages_ok_result hsess hcred hhist]; rfl
    · rw [send_reply_ok_result hsess hcred hpost]; rfl
  · intro hu hb
    refine ⟨?_, ?_, ?_⟩
    · rw [list_dms_ok_result hsess hcred hlist]
      exact congrArg Except.ok
        (List.map_congr_left fun ch _ => dmEntry_fail ch hu)
    · rw [list_recent_messages_ok_result hsess hcred hhist]
      exact congrArg Except.ok
        (List.map_congr_left fun m _ => enrichMessage_fail m hu hb)
    · rw [send_reply_ok_result hsess hcred hpost,
        resolveSender_fail (senderIdOf resp.message_user resp.message_bot_id)
          hu hb]

/-- A gateway whose primary operations succeed with fixed data while every
identity lookup fails. -/
def gwEnrichFail : Gateway :=
  ⟨fun _ _ _ => .ok [⟨"D1", none, true, some "U7"⟩],
    fun _ _ _ => .ok [⟨some "hello", some "U7", none, some 3⟩],
    fun _ _ => .error "user_not_found",
    fun _ _ => .error "bot_not_found",
    fun _ _ _ _ => .ok ⟨some true, some 9, some "U7", none⟩⟩

/-- Witness for C1: with every lookup failing, the three operations still
succeed and degrade names to raw ids and profiles to the empty string. -/
theorem c1_witness :
    resolveSessionToken storeOne (some "s1") = .ok "xoxb-secret"
      ∧ resolveCredential envEmpty "xoxb-secret" = .ok "xoxb-secret"
      ∧ (list_dms gwEnrichFail envEmpty storeOne none (some "s1") 20).result
          = .ok [⟨"D1", "Direct Message with U7", ""⟩]
      ∧ (list_recent_messages gwEnrichFail envEmpty storeOne "D1" none
            (some "s1") 20).result
          = .ok [⟨"hello", "U7", "", some 3⟩]
      ∧ (send_reply gwEnrichFail envEmpty storeOne "D1" "hi" none none
            (some "s1")).result
          = .ok ⟨true, "D1", some 9, "U7", ""⟩ := by
  have h := c1_enrichment_degrades_not_fails gwEnrichFail envEmpty storeOne
    none (some "s1") "D1" "hi" none 20 "xoxb-secret" "xoxb-secret"
    [⟨"D1", none, true, some "U7"⟩] [⟨some "hello", some "U7", none, some 3⟩]
    ⟨some true, some 9, some "U7", none⟩ rfl rfl rfl rfl rfl
  have h2 := h.2 (fun u => ⟨"user_not_found", rfl⟩)
    (fun b => ⟨"bot_not_found", rfl⟩)
  exact ⟨rfl, rfl, h2.1, h2.2.1, h2.2.2⟩

/-! ### C7 -/

/-- A gateway whose user lookup succeeds with a present-but-empty real
name and an email, and whose history holds one message from `U1`. -/
def gwEmptyRealName : Gateway :=
  ⟨fun _ _ _ => .ok [],
    fun _ _ _ => .ok [⟨some "hey", some "U1", none, some 4⟩],
    fun _ _ => .ok ⟨some "", some "a@x.com"⟩,
    fun _ _ => .error "bot_not_found",
    fun _ _ _ _ => .error "nope"⟩

/-- C7 counterexample: the user lookup succeeds with real name present but
equal to the empty string; the entry's display name is the empty string,
not the raw id `U1` the claim demands for an empty real name. -/
theorem c7_counterexample :
    (list_recent_messages gwEmptyRealName envEmpty storeOne "D1" none
        (some "s1") 20).result
      = .ok [⟨"hey", "", "a@x.com", some 4⟩] ∧ ("" : String) ≠ "U1" :=
  ⟨rfl, by decide⟩

/-- C7 amended: for a sender classified as a human user whose lookup
succeeds, the display name equals the returned real-name field whenever the
field is present — even when it is the empty string — and equals the raw id
only when the field is absent; the profile contact is the returned email or
the empty string when absent. -/
theorem c7_user_lookup_success (gw : Gateway) (env : Env) (store : Store)
    (channel : String) (bot_token session_id : Option String) (limit : Nat)
    (token tok : String) (msgs : List Message)
    (hsess : resolveSessionToken store session_id = .ok token)
    (hcred : resolveCredential env token = .ok tok)
    (hhist : gw.conversations_history tok channel limit = .ok msgs) :
    (list_recent_messages gw env store channel bot_token session_id
        limit).result
      = .ok (msgs.map (fun m => (enrichMessage gw tok m).1))
    ∧ ∀ (m : Message) (ui : UserInfo),
        strStartsWith (senderIdOf m.user m.bot_id) "U" = true →
        gw.users_info tok (senderIdOf m.user m.bot_id) = .ok ui →
        (enrichMessage gw tok m).1
          = ⟨m.text.getD "", ui.real_name.getD (senderIdOf m.user m.bot_id),
              ui.email.getD "", m.ts⟩ := by
  refine ⟨list_recent_messages_ok_result hsess hcred hhist, ?_⟩
  intro m ui hU hok
  simp [enrichMessage, resolveSender, hU, hok]

/-- A gateway matching the spec example: lookup succeeds with real name
`Alice` and email `a@x.com`. -/
def gwAlice : Gateway :=
  ⟨fun _ _ _ => .ok [],
    fun _ _ _ => .ok [⟨some "hey", some "U1", none, some 4⟩],
    fun _ _ => .ok ⟨some "Alice", some "a@x.com"⟩,
    fun _ _ => .error "bot_not_found",
    fun _ _ _ _ => .error "nope"⟩

/-- Witness for the amended C7 at the spec's own example. -/
theorem c7_witness :
    resolveSessionToken storeOne (some "s1") = .ok "xoxb-secret"
      ∧ (list_recent_messages gwAlice envEmpty storeOne "D1" none (some "s1")
            20).result
        = .ok [⟨"hey", "Alice", "a@x.com", some 4⟩] := by
  have h := c7_user_lookup_success gwAlice envEmpty storeOne "D1" none
    (some "s1") 20 "xoxb-secret" "xoxb-secret"
    [⟨some "hey", some "U1", none, some 4⟩] rfl rfl rfl
  exact ⟨rfl, h.1.trans (by rfl)⟩

/-! ### C6 -/

/-- A gateway whose history holds one senderless message and whose lookups
fail. -/
def gwNoSender : Gateway :=
  ⟨fun _ _ _ => .ok [],
    fun _ _ _ => .ok [⟨some "hi", none, none, some 5⟩],
    fun _ _ => .error "user_not_found",
    fun _ _ => .error "bot_not_found",
    fun _ _ _ _ => .error "nope"⟩

/-- C6: a message with neither a user nor a bot id gets the sentinel sender
id `Unknown` — which itself starts with the user prefix `U`, so the code
does issue a `users.info` call for `Unknown` (visible in the trace); the
entry degrades to display name `Unknown` and empty profile only because
that lookup fails. -/
theorem c6_unknown_sender_triggers_lookup :
    senderIdOf none none = "Unknown"
      ∧ strStartsWith "Unknown" "U" = true
      ∧ (list_recent_messages gwNoSender envEmpty storeOne "D1" none
            (some "s1") 20).result
          = .ok [⟨"hi", "Unknown", "", some 5⟩]
      ∧ (list_recent_messages gwNoSender envEmpty storeOne "D1" none
            (some "s1") 20).calls
          = [.conversationsHistory "xoxb-secret" "D1" 20,
              .usersInfo "xoxb-secret" "Unknown"] :=
  ⟨rfl, by decide, rfl, rfl⟩

/-! ### C2 -/

/-- The timestamp the probe loop computes for a candidate: the newest
message's `ts` (defaulted to 0 when the field is absent), or `none` when
the candidate's history is empty or its history call fails. -/
def lastTs (gw : Gateway) (tok : String) (dm : Channel) : Option ℚ :=
  match gw.conversations_history tok dm.id 1 with
  | .ok (m :: _) => some (m.ts.getD 0)
  | _ => none

/-- Invariant of the probe loop: starting from accumulator `(sel, ts)`, the
fold (when every history call succeeds) ends in a state whose running
maximum dominates `ts` and every candidate timestamp, and whose selected
candidate is either unchanged or a member whose timestamp equals the final
maximum and strictly exceeds the initial one. -/
lemma probe_fold_spec (gw : Gateway) (tok : String) :
    ∀ (ims : List Channel) (sel : Option Channel) (ts : ℚ)
      (tr : List GatewayCall),
      (∀ dm ∈ ims, ∃ h, gw.conversations_history tok dm.id 1 = .ok h) →
      ∃ st : Option Channel × ℚ,
        (ims.foldl (probeStep gw tok) (.ok (sel, ts), tr)).1 = .ok st
        ∧ ts ≤ st.2
        ∧ (st = (sel, ts)
            ∨ ∃ dm ∈ ims, st.1 = some dm ∧ lastTs gw tok dm = some st.2
                ∧ ts < st.2)
        ∧ (∀ dm ∈ ims, ∀ t, lastTs gw tok dm = some t → t ≤ st.2) := by
  intro ims
  induction ims with
  | nil =>
    intro sel ts tr _
    exact ⟨(sel, ts), rfl, le_refl ts, Or.inl rfl, by simp⟩
  | cons dm rest ih =>
    intro sel ts tr hall
    obtain ⟨h, hh⟩ := hall dm (by simp)
    have hrest : ∀ d ∈ rest, ∃ h, gw.conversations_history tok d.id 1 = .ok h :=
      fun d hd => hall d (List.mem_cons_of_mem dm hd)
    have hdmTs : lastTs gw tok dm = match h with
        | [] => none
        | m :: _ => some (m.ts.getD 0) := by
      cases h <;> simp [lastTs, hh]
    rw [List.foldl_cons]
    cases h with
    | nil =>
      have hstep : probeStep gw tok (.ok (sel, ts), tr) dm
          = (.ok (sel, ts), tr ++ [.conversationsHistory tok dm.id 1]) := by
        simp [probeStep, hh]
      rw [hstep]
      obtain ⟨st, h1, h2, h3, h4⟩ := ih sel ts _ hrest
      refine ⟨st, h1, h2, ?_, ?_⟩
      · rcases h3 with h3 | ⟨d, hd, hsome, hlt, hts⟩
        · exact Or.inl h3
        · exact Or.inr ⟨d, List.mem_cons_of_mem dm hd, hsome, hlt, hts⟩
      · intro d hd t ht
        rcases List.mem_cons.mp hd with rfl | hd
        · rw [hdmTs] at ht; cases ht
        · exact h4 d hd t ht
    | cons m hrest' =>
      simp only at hdmTs
      by_cases hgt : m.ts.getD 0 > ts
      · have hstep : probeStep gw tok (.ok (sel, ts), tr) dm
            = (.ok (some dm, m.ts.getD 0),
                tr ++ [.conversationsHistory tok dm.id 1]) := by
          simp [probeStep, hh, hgt]
        rw [hstep]
        obtain ⟨st, h1, h2, h3, h4⟩ := ih (some dm) (m.ts.getD 0) _ hrest
        refine ⟨st, h1, le_of_lt (lt_of_lt_of_le hgt h2), ?_, ?_⟩
        · rcases h3 with h3 | ⟨d, hd, hsome, hlt, hts⟩
          · refine Or.inr ⟨dm, List.mem_cons_self dm rest, ?_, ?_, ?_⟩
            · rw [h3]
            · rw [h3, hdmTs]
            · rw [h3]; exact hgt
          · exact Or.inr ⟨d, List.mem_cons_of_mem dm hd, hsome, hlt,
              lt_trans hgt hts⟩
        · intro d hd t ht
          rcases List.mem_cons.mp hd with rfl | hd
          · rw [hdmTs] at ht
            cases ht
            exact h2
          · exact h4 d hd t ht
      · push_neg at hgt
        have hstep : probeStep gw tok (.ok (sel, ts), tr) dm
            = (.ok (sel, ts), tr ++ [.conversationsHistory tok dm.id 1]) := by
          simp [probeStep, hh]
          intro hc
          exact absurd hc (not_lt.mpr hgt)
        rw [hstep]
        obtain ⟨st, h1, h2, h3, h4⟩ := ih sel ts _ hrest
        refine ⟨st, h1, h2, ?_, ?_⟩
        · rcases h3 with h3 | ⟨d, hd, hsome, hlt, hts⟩
          · exact Or.inl h3
          · exact Or.inr ⟨d, List.mem_cons_of_mem dm hd, hsome, hlt, hts⟩
        · intro d hd t ht
          rcases List.mem_cons.mp hd with rfl | hd
          · rw [hdmTs] at ht
            cases ht
            exact le_trans hgt h2
          · exact h4 d hd t ht

/-- A gateway with one IM candidate whose only (newest) message carries
timestamp 0. -/
def gwZeroTs : Gateway :=
  ⟨fun _ _ _ => .ok [⟨"D0", none, true, none⟩],
    fun _ _ _ => .ok [⟨some "old", some "U1", none, some 0⟩],
    fun _ _ => .error "user_not_found",
    fun _ _ => .error "bot_not_found",
    fun _ _ _ _ => .error "nope"⟩

/-- C2 counterexample: the single candidate has a non-empty history (one
message, timestamp 0) and hence the numerically greatest fetched timestamp,
yet the selector reports `NotFound` (`no_recent_dm_found`) instead of
returning it, because the loop starts its maximum at 0 and only accepts
strictly greater timestamps. -/
theorem c2_counterexample :
    gwZeroTs.conversations_history "xoxb-secret" "D0" 1
        = .ok [⟨some "old", some "U1", none, some 0⟩]
      ∧ (selectLatest gwZeroTs "xoxb-secret" [⟨"D0", none, true, none⟩]).1
          = .error (.notFound "no_recent_dm_found")
      ∧ (auto_reply_latest gwZeroTs envEmpty storeOne none none
            (some "s1")).result
          = .error (.notFound "no_recent_dm_found") :=
  ⟨rfl, rfl, rfl⟩

/-- C2 amended: when every candidate's history call succeeds, the selector
fails with `NotFound` on an empty input; any returned candidate is a member
with a strictly positive fetched timestamp that dominates every candidate's
fetched timestamp; and when no candidate has a positive fetched timestamp
(candidates with empty history carry none at all), it fails with
`NotFound`. -/
theorem c2_selector_latest (gw : Gateway) (tok : String) (ims : List Channel)
    (hall : ∀ dm ∈ ims, ∃ h, gw.conversations_history tok dm.id 1 = .ok h) :
    (ims = [] →
        (selectLatest gw tok ims).1 = .error (.notFound "no_im_channels"))
      ∧ (∀ dm, (selectLatest gw tok ims).1 = .ok dm →
          dm ∈ ims ∧ ∃ t, lastTs gw tok dm = some t ∧ 0 < t
            ∧ ∀ dm' ∈ ims, ∀ t', lastTs gw tok dm' = some t' → t' ≤ t)
      ∧ (ims ≠ [] → (∀ dm ∈ ims, ∀ t, lastTs gw tok dm = some t → t ≤ 0) →
          (selectLatest gw tok ims).1
            = .error (.notFound "no_recent_dm_found"))
      ∧ ((∃ dm ∈ ims, ∃ t, lastTs gw tok dm = some t ∧ 0 < t) →
          ∃ dm, (selectLatest gw tok ims).1 = .ok dm) := by
  obtain ⟨st, h1, -, h3, h4⟩ := probe_fold_spec gw tok ims none 0 [] hall
  have hpl : probeLatest gw tok ims
      = (.ok st, (probeLatest gw tok ims).2) := by
    rw [← h1]
    rfl
  refine ⟨?_, ?_, ?_, ?_⟩
  · intro he
    simp [selectLatest, he]
  · intro dm hdm
    by_cases he : ims.isEmpty
    · simp [selectLatest, he] at hdm
    · rw [selectLatest, if_neg he, hpl] at hdm
      rcases hsel : st.1 with _ | d
      · rw [show st = (st.1, st.2) from rfl, hsel] at hdm
        simp at hdm
      · rw [show st = (st.1, st.2) from rfl, hsel] at hdm
        simp only [Except.ok.injEq] at hdm
        subst hdm
        rcases h3 with h3 | ⟨d', hd', hsome', hts', hpos⟩
        · rw [h3] at hsel; cases hsel
        · rw [hsel] at hsome'
          cases hsome'
          exact ⟨hd', st.2, hts', hpos, fun d'' hd'' t'' ht'' =>
            h4 d'' hd'' t'' ht''⟩
  · intro hne hle
    have hnone : st.1 = none := by
      rcases hsel : st.1 with _ | d
      · rfl
      · exfalso
        rcases h3 with h3 | ⟨d', hd', hsome', hts', hpos⟩
        · rw [h3] at hsel; cases hsel
        · rw [hsel] at hsome'
          cases hsome'
          exact absurd (hle d hd' st.2 hts') (not_le.mpr hpos)
    have he : ims.isEmpty = false := by
      cases ims
      · exact absurd rfl hne
      · rfl
    rw [selectLatest, if_neg (by simp [he]), hpl,
      show st = (st.1, st.2) from rfl, hnone]
  · rintro ⟨d, hd, t, ht, htpos⟩
    have hsome : ∃ d', st.1 = some d' := by
      rcases h3 with h3 | ⟨d', hd', hsome', -, -⟩
      · exfalso
        have hle := h4 d hd t ht
        rw [h3] at hle
        exact absurd htpos (not_lt.mpr hle)
      · exact ⟨d', hsome'⟩
    obtain ⟨d', hd'⟩ := hsome
    have he : ims.isEmpty = false := by
      cases ims
      · cases hd
      · rfl
    refine ⟨d', ?_⟩
    rw [selectLatest, if_neg (by simp [he]), hpl,
      show st = (st.1, st.2) from rfl, hd']

/-- Three IM candidates for the spec's `[10, 30, 20]` example. -/
def chA : Channel := ⟨"A", none, true, none⟩

/-- Second candidate. -/
def chB : Channel := ⟨"B", none, true, none⟩

/-- Third candidate. -/
def chC : Channel := ⟨"C", none, true, none⟩

/-- A gateway whose three candidates have last-message timestamps 10, 30
and 20. -/
def gwThree : Gateway :=
  ⟨fun _ _ _ => .ok [chA, chB, chC],
    fun _ c _ =>
      if c = "A" then .ok [⟨none, none, none, some 10⟩]
      else if c = "B" then .ok [⟨none, none, none, some 30⟩]
      else .ok [⟨none, none, none, some 20⟩],
    fun _ _ => .error "user_not_found",
    fun _ _ => .error "bot_not_found",
    fun _ _ _ _ => .error "nope"⟩

/-- Witness for the amended C2 at the spec example `[10, 30, 20]`: the
candidate with timestamp 30 is selected and dominates all fetched
timestamps. -/
theorem c2_witness :
    (selectLatest gwThree "xoxb-secret" [chA, chB, chC]).1 = .ok chB
      ∧ chB ∈ [chA, chB, chC]
      ∧ ∃ t, lastTs gwThree "xoxb-secret" chB = some t ∧ 0 < t
          ∧ ∀ dm' ∈ [chA, chB, chC], ∀ t',
              lastTs gwThree "xoxb-secret" dm' = some t' → t' ≤ t := by
  have h := c2_selector_latest gwThree "xoxb-secret" [chA, chB, chC]
    (by intro dm hdm; fin_cases hdm <;> exact ⟨_, rfl⟩)
  have hsel : (selectLatest gwThree "xoxb-secret" [chA, chB, chC]).1
      = .ok chB := by rfl
  obtain ⟨hmem, hex⟩ := h.2.1 chB hsel
  exact ⟨hsel, hmem, hex⟩

end SlackMcp
